import Mathlib

/-!
Verification development for the anti-detection / orchestration core of the
airdrop-farming-bot repository.  Each Python module relevant to the frozen
claims is shallowly embedded as executable Lean definitions:

* `src/modules/auto_throttle.py`   → namespace `AutoThrottle`
* `src/modules/ua_rotation.py`     → namespace `UARotation`
* `src/modules/ip_manager.py`      → namespace `IPManager`
* `src/modules/scheduler.py`       → namespace `Scheduler`
* `src/modules/faucet_automation.py` (together with
  `get_overcooldown_delay` from `src/modules/anti_detection.py`)
                                   → namespace `Faucet`

Modelling conventions:
* timestamps are whole seconds (`ℤ`), mirroring `datetime.utcnow()` at the
  second granularity used by every comparison in the source;
* Python dictionaries become total functions into `Option`;
* every random draw (`random.uniform`, `random.gauss`, `random.expovariate`,
  `random.choice`, `random.randint`) becomes an explicit oracle argument,
  with the library's range contract stated as a hypothesis where a claim
  depends on it;
* `hashlib.sha256(...).hexdigest()` becomes an arbitrary function argument
  (`hash : String → String`, resp. `String → ℕ`), since the claims depend
  only on the hash being a deterministic function of its input;
* Python `int(x)` on a float is truncation toward zero, embedded as
  `pyTrunc` on `ℚ`.
-/

/-- Truncation toward zero on `ℚ`, the behaviour of Python's `int()`
on a non-integral number. -/
def pyTrunc (q : ℚ) : ℤ := if 0 ≤ q then ⌊q⌋ else ⌈q⌉

namespace AutoThrottle

/-- One element of `request_history[identifier]`: the tuple
`(timestamp, is_error, status_code)` appended by `record_request`. -/
structure Sample where
  ts : ℤ
  isError : Bool
  statusCode : Option ℤ
deriving DecidableEq, Repr

/-- Constructor parameters of `AutoThrottle.__init__` (after the environment
override, which only changes the concrete values). -/
structure Config where
  errorThreshold : ℚ
  errorWindowSeconds : ℤ
  minSamples : ℕ
  pauseDurationSeconds : ℤ
  backoffMultiplier : ℚ
  maxPauseDurationSeconds : ℤ

/-- Mutable state of an `AutoThrottle` instance: `request_history`,
`paused_identifiers` (identifier ↦ `(pause_until, current_pause_duration)`),
and the two statistics counters. -/
structure State where
  requestHistory : String → List Sample
  pausedIdentifiers : String → Option (ℤ × ℤ)
  throttleEvents : ℕ
  totalPauses : ℕ

/-- The throttle-triggering status codes checked by `record_request`:
`[429, 500, 502, 503, 504]`. -/
def throttleStatusCodes : List (Option ℤ) :=
  [some 429, some 500, some 502, some 503, some 504]

/-- `error_count / len(history)` as computed by `_check_and_throttle`
and `get_error_rate`. -/
def errorRate (h : List Sample) : ℚ :=
  ((h.filter (fun s => s.isError)).length : ℚ) / (h.length : ℚ)

/-- The pause duration chosen by `_apply_throttle`: for a repeated throttle
(an entry already in `paused_identifiers`),
`min(int(current_duration * backoff_multiplier), max_pause_duration_seconds)`;
for a first throttle, `pause_duration_seconds`. -/
def newPauseDuration (cfg : Config) (entry : Option (ℤ × ℤ)) : ℤ :=
  match entry with
  | some (_, currentDuration) =>
      min (pyTrunc ((currentDuration : ℚ) * cfg.backoffMultiplier))
        cfg.maxPauseDurationSeconds
  | none => cfg.pauseDurationSeconds

/-- `AutoThrottle._apply_throttle`: first pause uses
`pause_duration_seconds`; a repeated throttle (identifier already present in
`paused_identifiers`) uses `min(int(current * backoff_multiplier), max)`.
Stores `(now + new_duration, new_duration)` and bumps both counters. -/
def applyThrottle (cfg : Config) (st : State) (identifier : String)
    (now : ℤ) : State :=
  let newDuration : ℤ := newPauseDuration cfg (st.pausedIdentifiers identifier)
  { st with
    pausedIdentifiers := fun i =>
      if i = identifier then some (now + newDuration, newDuration)
      else st.pausedIdentifiers i
    throttleEvents := st.throttleEvents + 1
    totalPauses := st.totalPauses + 1 }

/-- `AutoThrottle._check_and_throttle`: below `min_samples` nothing
happens; otherwise throttle when `error_rate >= error_threshold`. -/
def checkAndThrottle (cfg : Config) (st : State) (identifier : String)
    (now : ℤ) : State :=
  let history := st.requestHistory identifier
  if history.length < cfg.minSamples then st
  else if cfg.errorThreshold ≤ errorRate history then
    applyThrottle cfg st identifier now
  else st

/-- The identifier's history after `record_request` has appended the new
sample and pruned entries with `timestamp < now - error_window_seconds`
(the `popleft` loop, i.e. dropping from the front). -/
def postHistory (cfg : Config) (st : State) (now : ℤ) (identifier : String)
    (isError : Bool) (statusCode : Option ℤ) : List Sample :=
  (st.requestHistory identifier ++ [Sample.mk now isError statusCode]).dropWhile
    (fun s => s.ts < now - cfg.errorWindowSeconds)

/-- `AutoThrottle.record_request`: append + prune, then evaluate the error
rate only when the status code is one of `throttleStatusCodes`. -/
def recordRequest (cfg : Config) (st : State) (now : ℤ) (identifier : String)
    (isError : Bool) (statusCode : Option ℤ) : State :=
  let st' : State :=
    { st with
      requestHistory := fun i =>
        if i = identifier then postHistory cfg st now identifier isError statusCode
        else st.requestHistory i }
  if statusCode ∈ throttleStatusCodes then
    checkAndThrottle cfg st' identifier now
  else st'

/-- `AutoThrottle.is_paused`: returns the input state unchanged plus
`(True, seconds_remaining)` while `now < pause_until`; at or past
`pause_until` it deletes the entry and returns `(False, None)`. -/
def isPaused (st : State) (identifier : String) (now : ℤ) :
    State × Bool × Option ℤ :=
  match st.pausedIdentifiers identifier with
  | none => (st, false, none)
  | some (pauseUntil, _) =>
      if pauseUntil ≤ now then
        ({ st with
            pausedIdentifiers := fun i =>
              if i = identifier then none else st.pausedIdentifiers i },
          false, none)
      else
        (st, true, some (pauseUntil - now))

/-- `AutoThrottle.get_error_rate`: `None` below `min_samples`. -/
def getErrorRate (cfg : Config) (st : State) (identifier : String) :
    Option ℚ :=
  let history := st.requestHistory identifier
  if history.length < cfg.minSamples then none
  else some (errorRate history)

/-- `AutoThrottle.get_slowdown_factor`: 1.0 on insufficient data or below
half the threshold, 1.5 below the threshold, 3.0 at or above it. -/
def getSlowdownFactor (cfg : Config) (st : State) (identifier : String) : ℚ :=
  match getErrorRate cfg st identifier with
  | none => 1
  | some r =>
      if r < cfg.errorThreshold * (1/2) then 1
      else if r < cfg.errorThreshold then 3/2
      else 3

/-- A single `record_request` invocation, for reasoning about call
sequences. -/
structure ReqEvent where
  now : ℤ
  identifier : String
  isError : Bool
  statusCode : Option ℤ
deriving DecidableEq, Repr

/-- Run a sequence of `record_request` calls in order. -/
def runEvents (cfg : Config) (evs : List ReqEvent) (st : State) : State :=
  evs.foldl
    (fun s e => recordRequest cfg s e.now e.identifier e.isError e.statusCode)
    st

end AutoThrottle

namespace UARotation

/-- Constructor parameters of `UserAgentRotator` that matter to the
behaviour: the loaded User-Agent pool and the session duration (hours). -/
structure Config where
  userAgents : List String
  sessionDurationHours : ℚ

/-- Mutable state: `session_ua`, mapping an identifier to
`(user_agent, assigned_at)`. -/
structure State where
  sessionUA : String → Option (String × ℤ)

/-- Python's `a or b`: `a` unless `a` is absent or the empty string
(both falsy), in which case `b`. -/
def orElseStr (a : Option String) (b : String) : String :=
  match a with
  | some s => if s = "" then b else s
  | none => b

/-- The identifier computed by `get_user_agent`.  The source line is
`session_id or wallet_address or f"shard_{shard_id}" if shard_id is not
None else "default"`, which Python parses as
`(session_id or wallet_address or f"shard_{shard_id}")` when
`shard_id is not None`, and `"default"` otherwise — so with no shard id the
session id and wallet address are ignored. -/
def identifierFor (sessionId walletAddress : Option String)
    (shardId : Option ℤ) : String :=
  match shardId with
  | some k => orElseStr sessionId (orElseStr walletAddress ("shard_" ++ toString k))
  | none => "default"

/-- `UserAgentRotator.get_user_agent`.  `choice` is the oracle value that
`random.choice(self.user_agents)` would return on this call (used only when
a fresh assignment is made). -/
def getUserAgent (cfg : Config) (st : State) (now : ℤ)
    (sessionId walletAddress : Option String) (shardId : Option ℤ)
    (choice : String) : String × State :=
  let identifier := identifierFor sessionId walletAddress shardId
  let fresh : String × State :=
    (choice,
      { sessionUA := fun i =>
          if i = identifier then some (choice, now) else st.sessionUA i })
  match st.sessionUA identifier with
  | some (ua, assignedAt) =>
      if ((now - assignedAt : ℚ) / 3600) < cfg.sessionDurationHours then (ua, st)
      else fresh
  | none => fresh

/-- `UserAgentRotator.rotate`: delete the identifier's assignment if
present. -/
def rotate (st : State) (identifier : String) : State :=
  match st.sessionUA identifier with
  | none => st
  | some _ =>
      { sessionUA := fun i =>
          if i = identifier then none else st.sessionUA i }

end UARotation

namespace IPManager

/-- Constructor parameters of `IPManager` relevant to proxy assignment. -/
structure Config where
  proxyList : List String
  ipStickyHours : ℚ
  faucetIpStickyHours : ℚ
  rpcIpStickyHours : ℚ
  rotationJitterPct : ℚ

/-- Mutable state: the assignment maps `shard_to_proxy` and
`traffic_type_proxy` plus the two statistics counters.
(`wallet_to_proxy` is declared in the source but never written or read.) -/
structure State where
  shardToProxy : ℤ × String → Option (String × ℤ)
  trafficTypeProxy : String × String → Option (String × ℤ)
  rotationCount : ℕ
  stickCount : ℕ

/-- Stickiness window selection shared by `get_proxy_for_wallet` and
`get_proxy_for_shard`: faucet and rpc traffic have their own hours. -/
def stickyHoursFor (cfg : Config) (trafficType : String) : ℚ :=
  if trafficType = "faucet" then cfg.faucetIpStickyHours
  else if trafficType = "rpc" then cfg.rpcIpStickyHours
  else cfg.ipStickyHours

/-- `IPManager._select_new_proxy`.  `hashFn` stands for
`int(hashlib.sha256(...).hexdigest(), 16)`; `offsetDraw` is the oracle for
`random.randint(0, min(2, len-1))`.  The final `% len` keeps any index in
range, so indexing is modelled with `getD`. -/
def selectNewProxy (hashFn : String → ℕ) (cfg : Config) (now : ℤ)
    (walletAddress : String) (shardId : Option ℤ) (trafficType : String)
    (offsetDraw : ℤ) : String :=
  let n : ℤ := (cfg.proxyList.length : ℤ)
  let timeBucket := pyTrunc ((now : ℚ) / (cfg.ipStickyHours * 3600))
  let index : ℤ :=
    match shardId with
    | some k => (k % n + timeBucket % n) % n
    | none =>
        ((hashFn (walletAddress ++ trafficType ++ toString timeBucket) : ℤ)) % n
  let index : ℤ := if 1 < n then (index + offsetDraw) % n else index
  cfg.proxyList.getD index.toNat ""

/-- `IPManager.get_proxy_for_wallet`.  `jitterDraw` is the oracle for
`random.uniform(-rotation_jitter_pct, rotation_jitter_pct)`. -/
def getProxyForWallet (hashFn : String → ℕ) (cfg : Config) (st : State)
    (now : ℤ) (walletAddress : String) (shardId : Option ℤ)
    (trafficType : String) (jitterDraw : ℚ) (offsetDraw : ℤ) :
    Option String × State :=
  if cfg.proxyList = [] then (none, st)
  else
    let stickyWithJitter := stickyHoursFor cfg trafficType * (1 + jitterDraw)
    let key := (walletAddress, trafficType)
    let fresh : Option String × State :=
      let proxy := selectNewProxy hashFn cfg now walletAddress shardId
        trafficType offsetDraw
      (some proxy,
        { st with
          trafficTypeProxy := fun k =>
            if k = key then some (proxy, now) else st.trafficTypeProxy k
          rotationCount := st.rotationCount + 1 })
    match st.trafficTypeProxy key with
    | some (proxy, assignedAt) =>
        if ((now - assignedAt : ℚ) / 3600) < stickyWithJitter then
          (some proxy, { st with stickCount := st.stickCount + 1 })
        else fresh
    | none => fresh

/-- `IPManager.get_proxy_for_shard` (no jitter on the window, no
`stick_count` update — per the source). -/
def getProxyForShard (hashFn : String → ℕ) (cfg : Config) (st : State)
    (now : ℤ) (shardId : ℤ) (trafficType : String) (offsetDraw : ℤ) :
    Option String × State :=
  if cfg.proxyList = [] then (none, st)
  else
    let stickyHours := stickyHoursFor cfg trafficType
    let key := (shardId, trafficType)
    let fresh : Option String × State :=
      let proxy := selectNewProxy hashFn cfg now ("shard_" ++ toString shardId)
        (some shardId) trafficType offsetDraw
      (some proxy,
        { st with
          shardToProxy := fun k =>
            if k = key then some (proxy, now) else st.shardToProxy k })
    match st.shardToProxy key with
    | some (proxy, assignedAt) =>
        if ((now - assignedAt : ℚ) / 3600) < stickyHours then (some proxy, st)
        else fresh
    | none => fresh

end IPManager

namespace Scheduler

/-- `SchedulerEntropy.get_jittered_delay`.  `draw` is the oracle value of
the branch's random call: `random.gauss(base, 0.3*base)` for `"gaussian"`,
`random.expovariate(1/base)` for `"exponential"`, and
`random.uniform(base*jitter_min_pct, base*jitter_max_pct)` for the uniform
fallback (whose library contract bounds the draw by construction).  The two
clamped branches compute `max(lo, min(hi, draw))` exactly as the source. -/
def getJitteredDelay (baseDelay jitterMinPct jitterMaxPct : ℚ)
    (distribution : String) (draw : ℚ) : ℚ :=
  if distribution = "gaussian" then
    max (baseDelay * jitterMinPct) (min (baseDelay * jitterMaxPct) draw)
  else if distribution = "exponential" then
    max (baseDelay * jitterMinPct) (min (baseDelay * jitterMaxPct) draw)
  else
    draw

end Scheduler

namespace Faucet

/-- A persisted `FaucetRequest` row (the columns used by
`claim_from_faucet`). -/
structure RequestRec where
  id : ℕ
  idempotencyKey : String
  status : String
  attempts : ℕ
deriving DecidableEq, Repr

/-- A persisted `FaucetCooldown` row. -/
structure CooldownRec where
  faucetName : String
  walletAddress : String
  chain : String
  lastRequestAt : ℤ
  cooldownUntil : ℤ
  requestsToday : ℕ
  dailyLimit : ℕ
deriving DecidableEq, Repr

/-- The database state visible to `FaucetWorker`: the `faucet_requests`
and `faucet_cooldowns` tables plus the autoincrement counter for request
ids. -/
structure DB where
  requests : List RequestRec
  cooldowns : List CooldownRec
  nextId : ℕ
deriving DecidableEq, Repr

/-- Calendar day of a timestamp (seconds), as compared by
`datetime.date()`: floor division by 86400. -/
def dayOf (t : ℤ) : ℤ := Int.fdiv t 86400

/-- The `%Y-%m-%d` date string, modelled as the decimal day index (the
model only needs it to be injective per calendar day). -/
def dateStr (t : ℤ) : String := toString (dayOf t)

/-- `FaucetWorker._generate_idempotency_key`: a hash of
`f"{faucet_name}:{wallet_address}:{chain}:{date_str}"`.  `hash` stands for
`sha256(...).hexdigest()`, an arbitrary deterministic function. -/
def idemKey (hash : String → String) (faucetName walletAddress chain : String)
    (date : ℤ) : String :=
  hash (faucetName ++ ":" ++ walletAddress ++ ":" ++ chain ++ ":" ++ dateStr date)

/-- `session.query(FaucetRequest).filter_by(idempotency_key=key).first()`. -/
def findRequest (reqs : List RequestRec) (key : String) : Option RequestRec :=
  reqs.find? (fun r => r.idempotencyKey == key)

/-- `session.query(FaucetCooldown).filter_by(faucet_name=..., wallet_address=...,
chain=...).first()`. -/
def findCooldown (cds : List CooldownRec) (f w c : String) :
    Option CooldownRec :=
  cds.find? (fun r => r.faucetName == f && r.walletAddress == w && r.chain == c)

/-- Update the first list element satisfying `p` (the row the ORM query
returned). -/
def updateFirst (p : α → Bool) (f : α → α) : List α → List α
  | [] => []
  | x :: xs => if p x then f x :: xs else x :: updateFirst p f xs

/-- `FaucetWorker._check_cooldown`: looks the cooldown row up and reports
`(True, cooldown_until)` iff `cooldown_until > now`.  Its `cooldown_hours`
parameter is never used in the body — kept here verbatim. -/
def checkCooldown (db : DB) (now : ℤ) (faucetName walletAddress chain : String)
    (cooldownHours : ℤ) : Bool × Option ℤ :=
  match findCooldown db.cooldowns faucetName walletAddress chain with
  | none => (false, none)
  | some cd => if now < cd.cooldownUntil then (true, some cd.cooldownUntil)
               else (false, none)

/-- `FaucetWorker._update_cooldown`: sets `cooldown_until = now +
cooldown_hours` (as a duration in seconds), resets the daily counter when
the calendar day advanced, and creates the row if absent. -/
def updateCooldown (db : DB) (now : ℤ) (faucetName walletAddress chain : String)
    (cooldownHours : ℤ) (dailyLimit : ℕ) : DB :=
  let cooldownUntil := now + cooldownHours * 3600
  match findCooldown db.cooldowns faucetName walletAddress chain with
  | some _ =>
      { db with
        cooldowns := updateFirst
          (fun r => r.faucetName == faucetName &&
            r.walletAddress == walletAddress && r.chain == chain)
          (fun cd =>
            { cd with
              requestsToday :=
                if dayOf cd.lastRequestAt < dayOf now then 1
                else cd.requestsToday + 1
              lastRequestAt := now
              cooldownUntil := cooldownUntil })
          db.cooldowns }
  | none =>
      { db with
        cooldowns := db.cooldowns ++
          [{ faucetName := faucetName, walletAddress := walletAddress,
             chain := chain, lastRequestAt := now,
             cooldownUntil := cooldownUntil, requestsToday := 1,
             dailyLimit := dailyLimit }] }

/-- `AntiDetection.get_overcooldown_delay`: extend a base cooldown by
`base * jitter_pct`, where `jitterDraw` is the oracle for
`random.uniform(over_cooldown_jitter_min, over_cooldown_jitter_max)`. -/
def getOvercooldownDelay (baseCooldownSeconds : ℚ) (jitterDraw : ℚ) : ℚ :=
  baseCooldownSeconds + baseCooldownSeconds * jitterDraw

/-- Oracle inputs consumed by one `claim_from_faucet` call: the
overcooldown jitter draw, the `should_skip_faucet` Bernoulli outcome, and
the outcome of the external interaction (captcha solving plus the HTTP
faucet request, which are outside this core and abstracted to a single
boolean: `true` exactly when the request path reaches a success result). -/
structure Oracles where
  overcooldownJitter : ℚ
  skipFaucet : Bool
  externalSuccess : Bool
deriving DecidableEq, Repr

/-- `FaucetWorker.claim_from_faucet`, state-transition form: returns the
success boolean and the database state after the call.  Control flow follows
the source: (1) early return `True` when a request row with today's
idempotency key already has status `success`; (2) compute the
overcooldown-extended hours and pass them to `_check_cooldown`, returning
`False` when in cooldown; (3) random skip veto; (4) insert an `in_progress`
request row; (5) on external success mark it `success` and update the
cooldown with the *nominal* `cooldown_hours`, else mark it `failed`. -/
def claimFromFaucet (hash : String → String) (db : DB) (now : ℤ)
    (faucetName walletAddress chain : String) (cooldownHours : ℤ)
    (dailyLimit : ℕ) (orc : Oracles) : Bool × DB :=
  let key := idemKey hash faucetName walletAddress chain now
  let alreadyClaimed :=
    match findRequest db.requests key with
    | some r => r.status == "success"
    | none => false
  if alreadyClaimed then (true, db)
  else
    let extendedCooldownHours : ℚ :=
      getOvercooldownDelay ((cooldownHours : ℚ) * 3600) orc.overcooldownJitter / 3600
    let inCooldown :=
      (checkCooldown db now faucetName walletAddress chain
        (pyTrunc extendedCooldownHours)).1
    if inCooldown then (false, db)
    else if orc.skipFaucet then (false, db)
    else
      let rid := db.nextId
      let db1 : DB :=
        { db with
          requests := db.requests ++
            [{ id := rid, idempotencyKey := key, status := "in_progress",
               attempts := 0 }]
          nextId := rid + 1 }
      if orc.externalSuccess then
        let db2 : DB :=
          { db1 with
            requests := updateFirst (fun r => r.id == rid)
              (fun r => { r with status := "success" }) db1.requests }
        (true, updateCooldown db2 now faucetName walletAddress chain
          cooldownHours dailyLimit)
      else
        (false,
          { db1 with
            requests := updateFirst (fun r => r.id == rid)
              (fun r => { r with status := "failed", attempts := r.attempts + 1 })
              db1.requests })

end Faucet

/-! Concrete fixtures used to evaluate the model on explicit inputs. -/

/-- A small throttle configuration: threshold 0.3, window 300 s,
`min_samples` 2, base pause 600 s, multiplier 2, max pause 3600 s. -/
def throttleCfgW : AutoThrottle.Config :=
  { errorThreshold := 3/10, errorWindowSeconds := 300, minSamples := 2,
    pauseDurationSeconds := 600, backoffMultiplier := 2,
    maxPauseDurationSeconds := 3600 }

/-- A single error sample at time 0 with status 429. -/
def sampleW : AutoThrottle.Sample := ⟨0, true, some 429⟩

/-- Throttle state in which identifier `"a"` has one recorded error and an
active pause `(pause_until = 5, current_duration = 600)`. -/
def throttleStW : AutoThrottle.State :=
  { requestHistory := fun i => if i = "a" then [sampleW] else []
    pausedIdentifiers := fun i => if i = "a" then some (5, 600) else none
    throttleEvents := 1, totalPauses := 1 }

/-- The empty throttle state. -/
def throttleStEmpty : AutoThrottle.State :=
  { requestHistory := fun _ => []
    pausedIdentifiers := fun _ => none
    throttleEvents := 0, totalPauses := 0 }

/-- Throttle state with only a pause for `"a"` until time 100 (duration 50). -/
def throttleStP : AutoThrottle.State :=
  { requestHistory := fun _ => []
    pausedIdentifiers := fun i => if i = "a" then some (100, 50) else none
    throttleEvents := 1, totalPauses := 1 }

/-- One error event with a throttle-triggering status code. -/
def reqEvW : AutoThrottle.ReqEvent := ⟨0, "a", true, some 429⟩

/-- UA pool with two entries, 12-hour sessions. -/
def uaCfgW : UARotation.Config := ⟨["A", "B"], 12⟩

/-- Empty UA-assignment state. -/
def uaStEmpty : UARotation.State := ⟨fun _ => none⟩

/-- UA state where session `"s"` was assigned `"A"` at time 0. -/
def uaStW : UARotation.State :=
  ⟨fun i => if i = "s" then some ("A", 0) else none⟩

/-- IP manager configuration with two proxies and 24-hour stickiness. -/
def ipCfgW : IPManager.Config :=
  { proxyList := ["p", "q"], ipStickyHours := 24, faucetIpStickyHours := 24,
    rpcIpStickyHours := 24, rotationJitterPct := 1/5 }

/-- IP manager configuration with an empty proxy pool. -/
def ipCfgEmpty : IPManager.Config :=
  { proxyList := [], ipStickyHours := 24, faucetIpStickyHours := 24,
    rpcIpStickyHours := 24, rotationJitterPct := 1/5 }

/-- Empty IP-assignment state. -/
def ipStEmpty : IPManager.State := ⟨fun _ => none, fun _ => none, 0, 0⟩

/-- A cooldown row for `("f", "w", "c")`: last success at time 0, stored
`cooldown_until = 3600` (one nominal hour after the success). -/
def faucetCdW : Faucet.CooldownRec := ⟨"f", "w", "c", 0, 3600, 1, 1⟩

/-- Database holding only `faucetCdW`. -/
def faucetDbCd : Faucet.DB := ⟨[], [faucetCdW], 0⟩

/-- A request row carrying the idempotency key of `("f", "w", "c")` on day 0
(under the identity hash) with terminal status `success`. -/
def faucetReqW : Faucet.RequestRec := ⟨0, "f:w:c:0", "success", 0⟩

/-- Database holding only `faucetReqW`. -/
def faucetDbReq : Faucet.DB := ⟨[faucetReqW], [], 1⟩

/-- Oracles: overcooldown jitter draw 0.2, no random skip, external call
succeeds. -/
def faucetOrcW : Faucet.Oracles := ⟨1/5, false, true⟩

/-! Helper lemmas about `AutoThrottle.record_request`. -/

/-- `record_request` changes `request_history` only at the recorded
identifier, where the result is `postHistory`; throttling never touches the
history. -/
theorem record_requestHistory_eq (cfg : AutoThrottle.Config)
    (st : AutoThrottle.State) (now : ℤ) (idf : String) (e : Bool)
    (sc : Option ℤ) (i : String) :
    (AutoThrottle.recordRequest cfg st now idf e sc).requestHistory i =
      if i = idf then AutoThrottle.postHistory cfg st now idf e sc
      else st.requestHistory i := by
  by_cases hsc : sc ∈ AutoThrottle.throttleStatusCodes <;>
    by_cases hlen : (AutoThrottle.postHistory cfg st now idf e sc).length <
        cfg.minSamples <;>
      by_cases hrate : cfg.errorThreshold ≤
          AutoThrottle.errorRate (AutoThrottle.postHistory cfg st now idf e sc) <;>
        simp [AutoThrottle.recordRequest, AutoThrottle.checkAndThrottle,
          AutoThrottle.applyThrottle, hsc, hlen, hrate]

/-- `record_request` for one identifier never changes
`paused_identifiers` at a different identifier. -/
theorem record_pause_frame (cfg : AutoThrottle.Config)
    (st : AutoThrottle.State) (now : ℤ) (idf : String) (e : Bool)
    (sc : Option ℤ) (i : String) (hne : i ≠ idf) :
    (AutoThrottle.recordRequest cfg st now idf e sc).pausedIdentifiers i =
      st.pausedIdentifiers i := by
  by_cases hsc : sc ∈ AutoThrottle.throttleStatusCodes <;>
    by_cases hlen : (AutoThrottle.postHistory cfg st now idf e sc).length <
        cfg.minSamples <;>
      by_cases hrate : cfg.errorThreshold ≤
          AutoThrottle.errorRate (AutoThrottle.postHistory cfg st now idf e sc) <;>
        simp [AutoThrottle.recordRequest, AutoThrottle.checkAndThrottle,
          AutoThrottle.applyThrottle, hsc, hlen, hrate, hne]

/-- When the post-call history of the recorded identifier is still below
`min_samples`, `record_request` leaves its pause entry untouched. -/
theorem record_pause_eq_of_lt (cfg : AutoThrottle.Config)
    (st : AutoThrottle.State) (now : ℤ) (idf : String) (e : Bool)
    (sc : Option ℤ)
    (h : (AutoThrottle.postHistory cfg st now idf e sc).length <
      cfg.minSamples) :
    (AutoThrottle.recordRequest cfg st now idf e sc).pausedIdentifiers idf =
      st.pausedIdentifiers idf := by
  by_cases hsc : sc ∈ AutoThrottle.throttleStatusCodes <;>
    simp [AutoThrottle.recordRequest, AutoThrottle.checkAndThrottle, hsc, h]

/-- When a `record_request` call fires the error-rate evaluation (throttle
status code, enough samples, rate at or above the threshold), the recorded
identifier's pause entry becomes `(now + d, d)` with
`d = newPauseDuration cfg (previous entry)`. -/
theorem record_pause_on_trigger (cfg : AutoThrottle.Config)
    (st : AutoThrottle.State) (now : ℤ) (idf : String) (e : Bool)
    (sc : Option ℤ)
    (hsc : sc ∈ AutoThrottle.throttleStatusCodes)
    (hlen : cfg.minSamples ≤
      (AutoThrottle.postHistory cfg st now idf e sc).length)
    (hrate : cfg.errorThreshold ≤
      AutoThrottle.errorRate (AutoThrottle.postHistory cfg st now idf e sc)) :
    (AutoThrottle.recordRequest cfg st now idf e sc).pausedIdentifiers idf =
      some (now + AutoThrottle.newPauseDuration cfg (st.pausedIdentifiers idf),
        AutoThrottle.newPauseDuration cfg (st.pausedIdentifiers idf)) := by
  simp [AutoThrottle.recordRequest, AutoThrottle.checkAndThrottle,
    AutoThrottle.applyThrottle, hsc, Nat.not_lt.mpr hlen, hrate]

/-- C1: when the error-rate evaluation fires for a monitored identifier, the
first pause uses the base pause duration; a trigger while the identifier is
already in `paused_identifiers` — which includes a trigger immediately after
expiry, since expiry is only applied lazily by `is_paused` — replaces the
duration with `int(previous * backoff_multiplier)` capped at the configured
maximum. -/
theorem throttle_backoff_on_trigger (cfg : AutoThrottle.Config)
    (st : AutoThrottle.State) (now : ℤ) (idf : String) (e : Bool)
    (sc : Option ℤ)
    (hsc : sc ∈ AutoThrottle.throttleStatusCodes)
    (hlen : cfg.minSamples ≤
      (AutoThrottle.postHistory cfg st now idf e sc).length)
    (hrate : cfg.errorThreshold ≤
      AutoThrottle.errorRate (AutoThrottle.postHistory cfg st now idf e sc)) :
    (st.pausedIdentifiers idf = none →
      (AutoThrottle.recordRequest cfg st now idf e sc).pausedIdentifiers idf =
        some (now + cfg.pauseDurationSeconds, cfg.pauseDurationSeconds)) ∧
    (∀ u d, st.pausedIdentifiers idf = some (u, d) →
      (AutoThrottle.recordRequest cfg st now idf e sc).pausedIdentifiers idf =
        some (now + min (pyTrunc ((d : ℚ) * cfg.backoffMultiplier))
            cfg.maxPauseDurationSeconds,
          min (pyTrunc ((d : ℚ) * cfg.backoffMultiplier))
            cfg.maxPauseDurationSeconds)) := by
  constructor
  · intro h0
    rw [record_pause_on_trigger cfg st now idf e sc hsc hlen hrate, h0]
    rfl
  · intro u d hud
    rw [record_pause_on_trigger cfg st now idf e sc hsc hlen hrate, hud]
    rfl

/-- C1 witness: with `throttleCfgW` (min 2, base 600, multiplier 2, max
3600) and an identifier already paused with duration 600, a triggering error
at time 10 re-pauses with duration `min(int(600*2), 3600) = 1200` until
time 1210. -/
theorem throttle_backoff_on_trigger_witness :
    (AutoThrottle.recordRequest throttleCfgW throttleStW 10 "a" true
        (some 429)).pausedIdentifiers "a" = some (1210, 1200) := by
  have h := (throttle_backoff_on_trigger throttleCfgW throttleStW 10 "a" true
    (some 429) (by decide) (by decide)
    (by norm_num [AutoThrottle.errorRate, AutoThrottle.postHistory,
      throttleCfgW, throttleStW, sampleW])).2 5 600 (by decide)
  rw [h]
  norm_num [pyTrunc, throttleCfgW]

/-- C2: over any sequence of `record_request` calls during which the
identifier's pruned history never reaches `min_samples`, the identifier's
pause entry never changes — no pause is ever triggered for it, regardless
of the error rate of those samples. -/
theorem throttle_no_pause_below_min_samples (cfg : AutoThrottle.Config)
    (evs : List AutoThrottle.ReqEvent) (st : AutoThrottle.State) (idf : String)
    (h : ∀ n, n ≤ evs.length →
      ((AutoThrottle.runEvents cfg (evs.take n) st).requestHistory idf).length <
        cfg.minSamples) :
    (AutoThrottle.runEvents cfg evs st).pausedIdentifiers idf =
      st.pausedIdentifiers idf := by
  induction evs generalizing st with
  | nil => rfl
  | cons ev evs ih =>
    have hstep : ((AutoThrottle.recordRequest cfg st ev.now ev.identifier
        ev.isError ev.statusCode).requestHistory idf).length < cfg.minSamples := by
      have h1 := h 1 (Nat.succ_le_succ (Nat.zero_le _))
      simpa [AutoThrottle.runEvents] using h1
    have hone : (AutoThrottle.recordRequest cfg st ev.now ev.identifier
        ev.isError ev.statusCode).pausedIdentifiers idf =
        st.pausedIdentifiers idf := by
      by_cases hid : idf = ev.identifier
      · subst hid
        refine record_pause_eq_of_lt cfg st ev.now _ ev.isError ev.statusCode ?_
        rwa [record_requestHistory_eq, if_pos rfl] at hstep
      · exact record_pause_frame cfg st ev.now ev.identifier ev.isError
          ev.statusCode idf hid
    have hwhole : AutoThrottle.runEvents cfg (ev :: evs) st =
        AutoThrottle.runEvents cfg evs
          (AutoThrottle.recordRequest cfg st ev.now ev.identifier ev.isError
            ev.statusCode) := rfl
    rw [hwhole, ih _ ?_, hone]
    intro n hn
    have := h (n + 1) (Nat.succ_le_succ hn)
    simpa [AutoThrottle.runEvents] using this

/-- C2 witness: a single 100%-error triggering event on an empty state with
`min_samples = 2` leaves the identifier unpaused. -/
theorem throttle_no_pause_below_min_samples_witness :
    (AutoThrottle.runEvents throttleCfgW [reqEvW]
        throttleStEmpty).pausedIdentifiers "a" = none := by
  have h := throttle_no_pause_below_min_samples throttleCfgW [reqEvW]
    throttleStEmpty "a" (by decide)
  simpa using h

/-- C7: for an identifier with pause entry `(pause_until = u, duration d)`,
`is_paused` strictly before `u` returns `(True, u - now)` with a
non-negative remainder and leaves the state unchanged; at or after `u` it
deletes the entry and returns `(False, None)`. -/
theorem throttle_isPaused_lazy_expiry (st : AutoThrottle.State) (idf : String)
    (now u d : ℤ) (h : st.pausedIdentifiers idf = some (u, d)) :
    (now < u →
      AutoThrottle.isPaused st idf now = (st, true, some (u - now)) ∧
        0 ≤ u - now) ∧
    (u ≤ now →
      AutoThrottle.isPaused st idf now =
        ({ st with pausedIdentifiers := fun i =>
            if i = idf then none else st.pausedIdentifiers i },
          false, none)) := by
  constructor
  · intro hlt
    refine ⟨?_, by linarith⟩
    simp [AutoThrottle.isPaused, h, not_le.mpr hlt]
  · intro hle
    simp [AutoThrottle.isPaused, h, hle]

/-- C7 witness: with a pause until 100, `is_paused` at 30 reports
`(True, 70)` without touching the state, and at 100 removes the entry. -/
theorem throttle_isPaused_lazy_expiry_witness :
    AutoThrottle.isPaused throttleStP "a" 30 = (throttleStP, true, some 70) ∧
    (AutoThrottle.isPaused throttleStP "a" 100).2 = (false, none) := by
  constructor
  · have h := ((throttle_isPaused_lazy_expiry throttleStP "a" 30 100 50
      rfl).1 (by decide)).1
    simpa using h
  · have h := (throttle_isPaused_lazy_expiry throttleStP "a" 100 100 50
      rfl).2 (by decide)
    rw [h]

/-- C10: with fewer than `min_samples` samples in the identifier's window
(`get_error_rate` returns `None`), `get_slowdown_factor` is exactly 1.0. -/
theorem throttle_slowdown_one_below_min (cfg : AutoThrottle.Config)
    (st : AutoThrottle.State) (idf : String)
    (h : (st.requestHistory idf).length < cfg.minSamples) :
    AutoThrottle.getSlowdownFactor cfg st idf = 1 := by
  simp [AutoThrottle.getSlowdownFactor, AutoThrottle.getErrorRate, h]

/-- C10 witness: an identifier with one recorded (error) sample under
`min_samples = 2` has slowdown factor 1, as does a never-observed one. -/
theorem throttle_slowdown_one_below_min_witness :
    AutoThrottle.getSlowdownFactor throttleCfgW throttleStW "a" = 1 ∧
    AutoThrottle.getSlowdownFactor throttleCfgW throttleStW "never" = 1 :=
  ⟨throttle_slowdown_one_below_min throttleCfgW throttleStW "a" (by decide),
   throttle_slowdown_one_below_min throttleCfgW throttleStW "never" (by decide)⟩

/-- C8: for a positive base delay and `jitter_min_pct ≤ jitter_max_pct`,
`get_jittered_delay` with any of the three distributions lies in
`[base*jitter_min_pct, base*jitter_max_pct]`: the uniform branch returns
the `random.uniform` draw, bounded by that call's contract, and the
gaussian and exponential branches clamp their draws to the same bounds. -/
theorem scheduler_jittered_delay_in_bounds (b jmin jmax : ℚ) (dist : String)
    (draw : ℚ) (hb : 0 < b) (hj : jmin ≤ jmax)
    (hdist : dist = "uniform" ∨ dist = "gaussian" ∨ dist = "exponential")
    (hdraw : dist = "uniform" → b * jmin ≤ draw ∧ draw ≤ b * jmax) :
    b * jmin ≤ Scheduler.getJitteredDelay b jmin jmax dist draw ∧
    Scheduler.getJitteredDelay b jmin jmax dist draw ≤ b * jmax := by
  have hlohi : b * jmin ≤ b * jmax := by
    exact mul_le_mul_of_nonneg_left hj hb.le
  rcases hdist with h | h | h <;> subst h <;>
    simp only [Scheduler.getJitteredDelay, if_true, if_false,
      reduceIte, String.reduceEq]
  · exact hdraw rfl
  · exact ⟨le_max_left _ _, max_le hlohi (min_le_left _ _)⟩
  · exact ⟨le_max_left _ _, max_le hlohi (min_le_left _ _)⟩

/-- C8 witness: base 10, percentages [0.5, 2]; a gaussian draw of 100 is
clamped into `[5, 20]`. -/
theorem scheduler_jittered_delay_in_bounds_witness :
    (10 : ℚ) * (1/2) ≤ Scheduler.getJitteredDelay 10 (1/2) 2 "gaussian" 100 ∧
    Scheduler.getJitteredDelay 10 (1/2) 2 "gaussian" 100 ≤ 10 * 2 :=
  scheduler_jittered_delay_in_bounds 10 (1/2) 2 "gaussian" 100 (by norm_num)
    (by norm_num) (Or.inr (Or.inl rfl))
    (fun h => absurd h (by simp))

/-- C4 counterexample: with no shard id, the identifier expression
collapses to `"default"` for every wallet (Python conditional-expression
precedence), so two different wallet addresses do not get independently
tracked assignments: the second wallet's call returns the first wallet's
fingerprint (even though its own fresh draw would have been `"B"`), changes
nothing, and no per-wallet entry exists. -/
theorem ua_distinct_wallets_counterexample :
    UARotation.identifierFor none (some "w1") none =
      UARotation.identifierFor none (some "w2") none ∧
    (UARotation.getUserAgent uaCfgW
        (UARotation.getUserAgent uaCfgW uaStEmpty 0 none (some "w1") none
          "A").2 0 none (some "w2") none "B").1 = "A" ∧
    (UARotation.getUserAgent uaCfgW
        (UARotation.getUserAgent uaCfgW uaStEmpty 0 none (some "w1") none
          "A").2 0 none (some "w2") none "B").2.sessionUA "w2" = none := by
  refine ⟨rfl, ?_, ?_⟩ <;>
    norm_num [UARotation.getUserAgent, UARotation.identifierFor,
      UARotation.orElseStr, uaCfgW, uaStEmpty]
  exact fun h => absurd h (by decide)

/-- C4 (amended): the fingerprint assignment is sticky per *derived*
identifier — the session id, else the wallet, else the shard tag when a
shard id is given, but always `"default"` when the shard id is absent.  Two
calls deriving the same identifier within the session duration return the
same fingerprint; a call or a forced rotation never affects a different
derived identifier's entry. -/
theorem ua_sticky_per_derived_identifier (cfg : UARotation.Config)
    (st : UARotation.State) (now t0 : ℤ) (sid wa : Option String)
    (shid : Option ℤ) (choice ua : String) :
    UARotation.identifierFor sid wa none = "default" ∧
    (st.sessionUA (UARotation.identifierFor sid wa shid) = some (ua, t0) →
      ((now - t0 : ℚ) / 3600) < cfg.sessionDurationHours →
      UARotation.getUserAgent cfg st now sid wa shid choice = (ua, st)) ∧
    (∀ j, j ≠ UARotation.identifierFor sid wa shid →
      (UARotation.getUserAgent cfg st now sid wa shid choice).2.sessionUA j =
        st.sessionUA j) ∧
    (∀ i j, j ≠ i → (UARotation.rotate st i).sessionUA j = st.sessionUA j) := by
  refine ⟨rfl, ?_, ?_, ?_⟩
  · intro hentry hage
    simp [UARotation.getUserAgent, hentry, hage]
  · intro j hj
    simp only [UARotation.getUserAgent]
    cases hentry : st.sessionUA (UARotation.identifierFor sid wa shid) with
    | none => simp [hj]
    | some p =>
        cases p with
        | mk ua' t' =>
            by_cases hage : ((now - t' : ℚ) / 3600) < cfg.sessionDurationHours <;>
              simp [hage, hj]
  · intro i j hj
    simp only [UARotation.rotate]
    cases st.sessionUA i with
    | none => rfl
    | some _ => simp [hj]

/-- C4 amended witness: session `"s"` (with a shard id present, so the
session id is actually used) gets its sticky fingerprint `"A"` back
unchanged within the 12-hour window, ignoring the fresh draw `"B"`. -/
theorem ua_sticky_per_derived_identifier_witness :
    UARotation.getUserAgent uaCfgW uaStW 0 (some "s") none (some 3) "B" =
      ("A", uaStW) :=
  (ua_sticky_per_derived_identifier uaCfgW uaStW 0 0 (some "s") none (some 3)
    "B" "A").2.1 (by simp [UARotation.identifierFor, UARotation.orElseStr, uaStW])
    (by norm_num [uaCfgW])

/-- C5: with a non-empty origin pool and no prior assignment for
`(wallet, traffic_class)`, a first `get_proxy_for_wallet` call assigns some
origin; a second call whose age `(t2-t1)/3600` is below the jittered
stickiness window of the second call returns the identical origin (cache
hit). -/
theorem origin_sticky_within_window (hashFn : String → ℕ)
    (cfg : IPManager.Config) (st : IPManager.State) (t1 t2 : ℤ) (w : String)
    (shid : Option ℤ) (tt : String) (j1 j2 : ℚ) (o1 o2 : ℤ)
    (hne : cfg.proxyList ≠ [])
    (hnone : st.trafficTypeProxy (w, tt) = none)
    (hage : ((t2 - t1 : ℚ) / 3600) <
      IPManager.stickyHoursFor cfg tt * (1 + j2)) :
    (IPManager.getProxyForWallet hashFn cfg
        (IPManager.getProxyForWallet hashFn cfg st t1 w shid tt j1 o1).2
        t2 w shid tt j2 o2).1 =
      (IPManager.getProxyForWallet hashFn cfg st t1 w shid tt j1 o1).1 ∧
    (IPManager.getProxyForWallet hashFn cfg st t1 w shid tt j1 o1).1 ≠
      none := by
  have h1 : IPManager.getProxyForWallet hashFn cfg st t1 w shid tt j1 o1 =
      (some (IPManager.selectNewProxy hashFn cfg t1 w shid tt o1),
        { st with
          trafficTypeProxy := fun k =>
            if k = (w, tt) then
              some (IPManager.selectNewProxy hashFn cfg t1 w shid tt o1, t1)
            else st.trafficTypeProxy k
          rotationCount := st.rotationCount + 1 }) := by
    simp [IPManager.getProxyForWallet, hne, hnone]
  rw [h1]
  simp [IPManager.getProxyForWallet, hne, hage]

/-- C5 witness: pool `["p","q"]`, fresh wallet, second call one hour after
the first (well inside the 24-hour window with zero jitter draw) returns
the same origin. -/
theorem origin_sticky_within_window_witness :
    (IPManager.getProxyForWallet (fun _ => 0) ipCfgW
        (IPManager.getProxyForWallet (fun _ => 0) ipCfgW ipStEmpty 0 "w" none
          "general" 0 0).2 3600 "w" none "general" 0 0).1 =
      (IPManager.getProxyForWallet (fun _ => 0) ipCfgW ipStEmpty 0 "w" none
        "general" 0 0).1 ∧
    (IPManager.getProxyForWallet (fun _ => 0) ipCfgW ipStEmpty 0 "w" none
      "general" 0 0).1 ≠ none :=
  origin_sticky_within_window (fun _ => 0) ipCfgW ipStEmpty 0 3600 "w" none
    "general" 0 0 0 0 (by decide) rfl
    (by norm_num [IPManager.stickyHoursFor, ipCfgW])

/-- C9: with an empty origin pool, both assignment operations return no
origin for every wallet, shard and traffic class, and the state — in
particular every assignment map — is returned unchanged (the early return
precedes any pool indexing, so no exception path exists). -/
theorem origin_empty_pool_none (hashFn : String → ℕ) (cfg : IPManager.Config)
    (st : IPManager.State) (now : ℤ) (w : String) (shid : Option ℤ) (sh : ℤ)
    (tt : String) (j : ℚ) (o : ℤ) (h : cfg.proxyList = []) :
    IPManager.getProxyForWallet hashFn cfg st now w shid tt j o = (none, st) ∧
    IPManager.getProxyForShard hashFn cfg st now sh tt o = (none, st) := by
  constructor <;>
    simp [IPManager.getProxyForWallet, IPManager.getProxyForShard, h]

/-- C9 witness: the empty-pool configuration yields `(none, st)` from both
operations at a concrete wallet, shard and traffic class. -/
theorem origin_empty_pool_none_witness :
    IPManager.getProxyForWallet (fun _ => 0) ipCfgEmpty ipStEmpty 0 "w" none
      "faucet" 0 0 = (none, ipStEmpty) ∧
    IPManager.getProxyForShard (fun _ => 0) ipCfgEmpty ipStEmpty 0 3
      "faucet" 0 = (none, ipStEmpty) :=
  origin_empty_pool_none (fun _ => 0) ipCfgEmpty ipStEmpty 0 "w" none 3
    "faucet" 0 0 rfl

/-- C3 counterexample: the overcooldown extension never reaches the check.
With a cooldown row recording a success at time 0 and a stored nominal
expiry of 3600 s (1 h), and an overcooldown jitter draw of 0.2 (extended
window 4320 s): at time 4000 — strictly inside the extended window —
`_check_cooldown` reports no cooldown and `claim_from_faucet` executes and
succeeds; it likewise executes at time 3600, the exact nominal boundary. -/
theorem faucet_overcooldown_unused_counterexample :
    ((4000 : ℚ) - (faucetCdW.lastRequestAt : ℚ) <
        Faucet.getOvercooldownDelay ((1 : ℚ) * 3600) (1/5) ∧
      (Faucet.claimFromFaucet (fun s => s) faucetDbCd 4000 "f" "w" "c" 1 1
        faucetOrcW).1 = true) ∧
    (Faucet.claimFromFaucet (fun s => s) faucetDbCd 3600 "f" "w" "c" 1 1
      faucetOrcW).1 = true := by
  refine ⟨⟨by norm_num [Faucet.getOvercooldownDelay, faucetCdW], ?_⟩, ?_⟩ <;>
    norm_num [Faucet.claimFromFaucet, Faucet.idemKey, Faucet.findRequest,
      Faucet.checkCooldown, Faucet.findCooldown, Faucet.dateStr, Faucet.dayOf,
      Faucet.getOvercooldownDelay, faucetDbCd, faucetCdW, faucetOrcW]

/-- C3 (amended): `_check_cooldown` skips the unit iff the current time is
strictly before the *stored* cooldown-expiry timestamp; the
overcooldown-extended hours argument passed to it has no effect on the
outcome, so a repeat claim may execute at the exact boundary of the nominal
cooldown. -/
theorem faucet_cooldown_check_nominal_only (db : Faucet.DB) (now : ℤ)
    (f w c : String) (h1 h2 : ℤ) :
    Faucet.checkCooldown db now f w c h1 = Faucet.checkCooldown db now f w c h2 ∧
    ((Faucet.checkCooldown db now f w c h1).1 = true ↔
      ∃ cd, Faucet.findCooldown db.cooldowns f w c = some cd ∧
        now < cd.cooldownUntil) := by
  constructor
  · rfl
  · simp only [Faucet.checkCooldown]
    cases hcd : Faucet.findCooldown db.cooldowns f w c with
    | none => simp
    | some cd =>
        by_cases hlt : now < cd.cooldownUntil <;> simp [hlt]

/-- C6: if a request row already carries today's idempotency key with
terminal status `success`, `claim_from_faucet` returns `True` immediately:
for every oracle assignment (in particular, whatever the external call
would have returned), no request row, cooldown row, or id counter changes. -/
theorem faucet_idempotent_skip (hash : String → String) (db : Faucet.DB)
    (now : ℤ) (f w c : String) (ch : ℤ) (dl : ℕ) (orc : Faucet.Oracles)
    (r : Faucet.RequestRec)
    (hfind : Faucet.findRequest db.requests (Faucet.idemKey hash f w c now) =
      some r)
    (hsucc : r.status = "success") :
    Faucet.claimFromFaucet hash db now f w c ch dl orc = (true, db) := by
  simp [Faucet.claimFromFaucet, hfind, hsucc]

/-- C6 witness: under the identity hash, a database holding the
`("f","w","c")` day-0 success row makes a repeated claim return `(True, db)`
with the database untouched, for a concrete oracle assignment in which the
external call would have succeeded. -/
theorem faucet_idempotent_skip_witness :
    Faucet.claimFromFaucet (fun s => s) faucetDbReq 0 "f" "w" "c" 24 1
      faucetOrcW = (true, faucetDbReq) :=
  faucet_idempotent_skip (fun s => s) faucetDbReq 0 "f" "w" "c" 24 1
    faucetOrcW faucetReqW (by decide) rfl
